import Mathlib

/-!
Verification of the authentication and session subsystem of the
online-course platform (`user_auth_manager.py`).

Strings of the source are embedded as `List Char`; Python dicts as
association lists; clock readings, generated salts/tokens/ids and the
external SHA-256 digest (from `hashlib`) as explicit parameters.
Exceptions are embedded as an explicit error type, and every stateful
method returns its result together with the successor state.
-/

set_option autoImplicit false

deriving instance DecidableEq for Except

namespace AuthSpec

/-- Abbreviation turning a Lean string literal into the `List Char`
embedding used throughout. -/
def str (s : String) : List Char := s.data

/-! ### Python `str.split(sep)` for a one-character separator -/

/-- Prepend a character to the first part of a split result
(`[[c]]` on the empty result, which never arises). -/
def consHead (c : Char) : List (List Char) → List (List Char)
  | [] => [[c]]
  | p :: ps => (c :: p) :: ps

/-- Embedding of Python `s.split(sep)` for a single-character separator:
splits at every occurrence, keeping empty parts, and yields `[[]]` on the
empty string. -/
def splitOn (sep : Char) : List Char → List (List Char)
  | [] => [[]]
  | c :: rest => if c = sep then [] :: splitOn sep rest else consHead c (splitOn sep rest)

/-- Number of occurrences of a character in a string. -/
def countChar (sep : Char) : List Char → Nat
  | [] => 0
  | c :: rest => (if c = sep then 1 else 0) + countChar sep rest

theorem consHead_ne_nil (c : Char) (ps : List (List Char)) : consHead c ps ≠ [] := by
  cases ps <;> simp [consHead]

theorem splitOn_ne_nil (sep : Char) (l : List Char) : splitOn sep l ≠ [] := by
  cases l with
  | nil => simp [splitOn]
  | cons c rest =>
    by_cases hc : c = sep
    · simp [splitOn, hc]
    · simp [splitOn, hc, consHead_ne_nil]

theorem splitOn_no_sep (sep : Char) (l : List Char) (h : ∀ c ∈ l, c ≠ sep) :
    splitOn sep l = [l] := by
  induction l with
  | nil => rfl
  | cons c rest ih =>
    have hc : c ≠ sep := h c (List.mem_cons_self c rest)
    have hrest : splitOn sep rest = [rest] :=
      ih fun x hx => h x (List.mem_cons_of_mem c hx)
    simp [splitOn, hc, hrest, consHead]

theorem splitOn_append (sep : Char) (l r : List Char) (h : ∀ c ∈ l, c ≠ sep) :
    splitOn sep (l ++ sep :: r) = l :: splitOn sep r := by
  induction l with
  | nil => simp [splitOn]
  | cons c rest ih =>
    have hc : c ≠ sep := h c (List.mem_cons_self c rest)
    have hrest := ih fun x hx => h x (List.mem_cons_of_mem c hx)
    simp [splitOn, hc, hrest, consHead]

theorem splitOn_length (sep : Char) (l : List Char) :
    (splitOn sep l).length = countChar sep l + 1 := by
  induction l with
  | nil => rfl
  | cons c rest ih =>
    by_cases hc : c = sep
    · simp [splitOn, countChar, hc, ih, Nat.add_comm]
    · obtain ⟨p, ps, hps⟩ : ∃ p ps, splitOn sep rest = p :: ps := by
        cases hsp : splitOn sep rest with
        | nil => exact absurd hsp (splitOn_ne_nil sep rest)
        | cons p ps => exact ⟨p, ps, rfl⟩
      simp [splitOn, countChar, hc, consHead, hps] at ih ⊢
      omega

/-! ### Association lists embedding Python dicts -/

section AssocOps

variable {κ α : Type} [DecidableEq κ]

/-- Embedding of `d.get(k)` / `d[k]` lookup: first binding of the key. -/
def lookup (l : List (κ × α)) (k : κ) : Option α :=
  match l with
  | [] => none
  | (k', v) :: rest => if k' = k then some v else lookup rest k

/-- Embedding of `d[k] = v`: replace the binding in place, or append. -/
def insertKey (l : List (κ × α)) (k : κ) (v : α) : List (κ × α) :=
  match l with
  | [] => [(k, v)]
  | (k', v') :: rest => if k' = k then (k, v) :: rest else (k', v') :: insertKey rest k v

/-- Embedding of `del d[k]`: drop the bindings of the key. -/
def eraseKey (l : List (κ × α)) (k : κ) : List (κ × α) :=
  match l with
  | [] => []
  | (k', v') :: rest => if k' = k then eraseKey rest k else (k', v') :: eraseKey rest k

theorem lookup_insertKey_self (l : List (κ × α)) (k : κ) (v : α) :
    lookup (insertKey l k v) k = some v := by
  induction l with
  | nil => simp [insertKey, lookup]
  | cons p rest ih =>
    by_cases h : p.1 = k
    · simp [insertKey, h, lookup]
    · simp [insertKey, h, lookup, ih]

theorem lookup_insertKey_ne (l : List (κ × α)) (k k' : κ) (v : α) (h : k ≠ k') :
    lookup (insertKey l k v) k' = lookup l k' := by
  induction l with
  | nil => simp [insertKey, lookup, h]
  | cons p rest ih =>
    by_cases hp : p.1 = k
    · simp [insertKey, hp, lookup, h]
    · simp [insertKey, hp, lookup, ih]

theorem lookup_eraseKey_self (l : List (κ × α)) (k : κ) :
    lookup (eraseKey l k) k = none := by
  induction l with
  | nil => simp [eraseKey, lookup]
  | cons p rest ih =>
    by_cases h : p.1 = k
    · simp [eraseKey, h, ih]
    · simp [eraseKey, h, lookup, ih]

theorem eraseKey_of_lookup_none (l : List (κ × α)) (k : κ) (h : lookup l k = none) :
    eraseKey l k = l := by
  induction l with
  | nil => rfl
  | cons p rest ih =>
    by_cases hp : p.1 = k
    · simp [lookup, hp] at h
    · simp [lookup, hp] at h
      simp [eraseKey, hp, ih h]

end AssocOps

/-! ### PasswordManager -/

/-- Characters of lowercase hexadecimal output (`secrets.token_hex`,
`hashlib.sha256(...).hexdigest()`). -/
def isLowerHexChar (c : Char) : Bool := c.isDigit || ('a' ≤ c && c ≤ 'f')

namespace PasswordManager

def MIN_PASSWORD_LENGTH : Nat := 8

/-- Embedding of `PasswordManager.hash_password`.  The externally supplied
`sha256hex` stands for `hashlib.sha256(·.encode()).hexdigest()` and `salt`
for the `secrets.token_hex(16)` draw. -/
def hash_password (sha256hex : List Char → List Char) (salt password : List Char) :
    List Char :=
  salt ++ '$' :: sha256hex (password ++ salt)

/-- Embedding of `PasswordManager.verify_password`: split the stored hash
on `$` into salt and digest, recompute, compare; any other shape of the
split (the `ValueError` of tuple unpacking) yields `False`. -/
def verify_password (sha256hex : List Char → List Char)
    (password stored_hash : List Char) : Bool :=
  match splitOn '$' stored_hash with
  | [salt, pwd_hash] => decide (sha256hex (password ++ salt) = pwd_hash)
  | _ => false

/-- Embedding of `PasswordManager.validate_password_strength`: `.ok true`
when the password passes, `.error msg` embedding the raised
`ValidationError` message. -/
def validate_password_strength (password : List Char) : Except (List Char) Bool :=
  if password.length < MIN_PASSWORD_LENGTH then
    .error (str "Contraseña debe tener 8+ caracteres")
  else if ¬ password.any Char.isUpper then
    .error (str "Debe contener una mayúscula")
  else if ¬ password.any Char.isLower then
    .error (str "Debe contener una minúscula")
  else if ¬ password.any Char.isDigit then
    .error (str "Debe contener un número")
  else
    .ok true

end PasswordManager

theorem lowerHex_ne_dollar (c : Char) (h : isLowerHexChar c = true) : c ≠ '$' := by
  intro hc
  subst hc
  exact absurd h (by decide)

/-- C1: for every password, `verify_password` accepts the output of
`hash_password`: the salt is a 32-character (lowercase-hex) string, the
digest is the hex digest of password ++ salt, the split on `$` recovers
both, and the recomputed digest matches. -/
theorem verify_roundtrip (sha256hex : List Char → List Char) (salt password : List Char)
    (hsalt : salt.all isLowerHexChar = true) (_hlen : salt.length = 32)
    (hsha : ∀ s, (sha256hex s).all isLowerHexChar = true) :
    PasswordManager.verify_password sha256hex password
      (PasswordManager.hash_password sha256hex salt password) = true := by
  have hsalt' : ∀ c ∈ salt, c ≠ '$' := fun c hc =>
    lowerHex_ne_dollar c (by
      have := List.all_eq_true.mp hsalt c hc
      exact this)
  have hdig' : ∀ c ∈ sha256hex (password ++ salt), c ≠ '$' := fun c hc =>
    lowerHex_ne_dollar c (List.all_eq_true.mp (hsha (password ++ salt)) c hc)
  unfold PasswordManager.verify_password PasswordManager.hash_password
  rw [splitOn_append '$' salt _ hsalt',
      splitOn_no_sep '$' _ hdig']
  simp

/-- Witness for C1 at a concrete digest function, salt and password. -/
theorem verify_roundtrip_witness :
    PasswordManager.verify_password (fun _ => str "0ab4")
      (str "Passw0rd")
      (PasswordManager.hash_password (fun _ => str "0ab4")
        (str "aaaaaaaaaaaaaaaaaaaaaaaaaaaaaaaa") (str "Passw0rd")) = true :=
  verify_roundtrip (fun _ => str "0ab4") (str "aaaaaaaaaaaaaaaaaaaaaaaaaaaaaaaa")
    (str "Passw0rd") (by decide) (by decide)
    (fun _ => by change (str "0ab4").all isLowerHexChar = true; decide)

/-- C2: on a stored hash that does not contain exactly one `$`,
`verify_password` returns `false` (the tuple-unpacking `ValueError` is
caught and turned into `False`). -/
theorem verify_malformed_false (sha256hex : List Char → List Char)
    (password stored_hash : List Char) (h : countChar '$' stored_hash ≠ 1) :
    PasswordManager.verify_password sha256hex password stored_hash = false := by
  have hlen : (splitOn '$' stored_hash).length = countChar '$' stored_hash + 1 :=
    splitOn_length '$' stored_hash
  unfold PasswordManager.verify_password
  match hsp : splitOn '$' stored_hash with
  | [] => rfl
  | [_] => rfl
  | [a, b] =>
    rw [hsp] at hlen
    simp at hlen
    omega
  | _ :: _ :: _ :: _ => rfl

/-- Witness for C2 on a stored hash with two `$` characters. -/
theorem verify_malformed_false_witness :
    PasswordManager.verify_password (fun _ => str "0ab4") (str "pw")
      (str "ab$cd$ef") = false :=
  verify_malformed_false (fun _ => str "0ab4") (str "pw") (str "ab$cd$ef") (by decide)

/-! ### SessionManager -/

/-- The value stored in `self.sessions[token]` by `create_session`.
Timestamps are embedded as integers. -/
structure Session where
  user_id : List Char
  created_at : Int
  expires_at : Int
deriving DecidableEq, Repr

/-- State of a `SessionManager` instance: the `sessions` dict and the
`session_duration` fixed at construction. -/
structure SessionManagerState where
  sessions : List (List Char × Session)
  session_duration : Int
deriving DecidableEq, Repr

namespace SessionManager

/-- Embedding of `SessionManager.create_session`; the fresh
`secrets.token_urlsafe(32)` draw and `datetime.now()` come in as
parameters, and the token is returned with the successor state. -/
def create_session (token : List Char) (now : Int) (st : SessionManagerState)
    (user_id : List Char) : List Char × SessionManagerState :=
  let s : Session :=
    { user_id := user_id, created_at := now, expires_at := now + st.session_duration }
  (token, { st with sessions := insertKey st.sessions token s })

/-- Embedding of `SessionManager.revoke_session`: delete the token's entry
when present and report whether it existed. -/
def revoke_session (st : SessionManagerState) (token : List Char) :
    Bool × SessionManagerState :=
  if (lookup st.sessions token).isSome then
    (true, { st with sessions := eraseKey st.sessions token })
  else
    (false, st)

/-- Embedding of `SessionManager.validate_session`: absent token gives
`none`; an expired entry (`now > expires_at`) is revoked and gives `none`;
otherwise the stored `user_id` is returned. -/
def validate_session (now : Int) (st : SessionManagerState) (token : List Char) :
    Option (List Char) × SessionManagerState :=
  match lookup st.sessions token with
  | none => (none, st)
  | some s =>
    if s.expires_at < now then (none, (revoke_session st token).2)
    else (some s.user_id, st)

end SessionManager

/-- C4: `validate_session` returns `none` on an unknown token; on a stored
token past its expiry it evicts the entry and returns `none`; otherwise it
returns the stored `user_id` and leaves the store unchanged. -/
theorem validate_session_spec (now : Int) (st : SessionManagerState)
    (token : List Char) :
    (lookup st.sessions token = none →
      SessionManager.validate_session now st token = (none, st)) ∧
    (∀ s, lookup st.sessions token = some s → s.expires_at < now →
      SessionManager.validate_session now st token =
        (none, { st with sessions := eraseKey st.sessions token })) ∧
    (∀ s, lookup st.sessions token = some s → now ≤ s.expires_at →
      SessionManager.validate_session now st token = (some s.user_id, st)) := by
  refine ⟨?_, ?_, ?_⟩
  · intro h
    simp [SessionManager.validate_session, h]
  · intro s hs hexp
    simp [SessionManager.validate_session, hs, hexp,
      SessionManager.revoke_session, Option.isSome]
  · intro s hs hexp
    have : ¬ s.expires_at < now := not_lt.mpr hexp
    simp [SessionManager.validate_session, hs, this]

/-- Witness for C4: a store holding one live and one expired session,
exercising all three branches. -/
theorem validate_session_spec_witness :
    (SessionManager.validate_session 10
        ⟨[(str "t1", ⟨str "u1", 0, 20⟩)], 20⟩ (str "zz") =
      (none, ⟨[(str "t1", ⟨str "u1", 0, 20⟩)], 20⟩)) ∧
    (SessionManager.validate_session 30
        ⟨[(str "t1", ⟨str "u1", 0, 20⟩)], 20⟩ (str "t1") =
      (none, ⟨[], 20⟩)) ∧
    (SessionManager.validate_session 10
        ⟨[(str "t1", ⟨str "u1", 0, 20⟩)], 20⟩ (str "t1") =
      (some (str "u1"), ⟨[(str "t1", ⟨str "u1", 0, 20⟩)], 20⟩)) := by
  refine ⟨?_, ?_, ?_⟩
  · exact (validate_session_spec 10 ⟨[(str "t1", ⟨str "u1", 0, 20⟩)], 20⟩
      (str "zz")).1 (by decide)
  · exact (validate_session_spec 30 ⟨[(str "t1", ⟨str "u1", 0, 20⟩)], 20⟩
      (str "t1")).2.1 ⟨str "u1", 0, 20⟩ (by decide) (by decide)
  · exact (validate_session_spec 10 ⟨[(str "t1", ⟨str "u1", 0, 20⟩)], 20⟩
      (str "t1")).2.2 ⟨str "u1", 0, 20⟩ (by decide) (by decide)

/-- C8: `revoke_session` on a present token removes it and returns `true`;
on an absent token it returns `false` and leaves the store unchanged; in
particular revoking twice yields `true` then `false` with no change on
the second call. -/
theorem revoke_session_idempotent (st : SessionManagerState) (token : List Char) :
    ((lookup st.sessions token).isSome →
      SessionManager.revoke_session st token =
        (true, { st with sessions := eraseKey st.sessions token }) ∧
      SessionManager.revoke_session (SessionManager.revoke_session st token).2 token =
        (false, (SessionManager.revoke_session st token).2)) ∧
    (lookup st.sessions token = none →
      SessionManager.revoke_session st token = (false, st)) := by
  constructor
  · intro h
    have h1 : SessionManager.revoke_session st token =
        (true, { st with sessions := eraseKey st.sessions token }) := by
      simp [SessionManager.revoke_session, h]
    refine ⟨h1, ?_⟩
    rw [h1]
    simp [SessionManager.revoke_session, lookup_eraseKey_self]
  · intro h
    simp [SessionManager.revoke_session, h]

/-- Witness for C8: revoking the same token twice on a one-entry store. -/
theorem revoke_session_idempotent_witness :
    (SessionManager.revoke_session ⟨[(str "t1", ⟨str "u1", 0, 20⟩)], 20⟩ (str "t1") =
      (true, ⟨[], 20⟩)) ∧
    (SessionManager.revoke_session ⟨[], 20⟩ (str "t1") = (false, ⟨[], 20⟩)) := by
  have h := (revoke_session_idempotent ⟨[(str "t1", ⟨str "u1", 0, 20⟩)], 20⟩
    (str "t1")).1 (by decide)
  exact ⟨h.1, by
    have h2 := h.2
    rw [h.1] at h2
    exact h2⟩

/-! ### User records and the UserManager -/

/-- Values of the heterogeneous dict returned by `User.to_dict`
(strings, timestamps, booleans). -/
inductive FieldVal
  | s (v : List Char)
  | t (v : Int)
  | b (v : Bool)
deriving DecidableEq, Repr

/-- Embedding of the `User` class state set by `User.__init__`. -/
structure User where
  user_id : List Char
  email : List Char
  password_hash : List Char
  name : List Char
  user_type : List Char
  created_at : Int
  last_login : Option Int
  is_active : Bool
  enrolled_courses : List (List Char)
deriving DecidableEq, Repr

/-- The class constant `User.VALID_USER_TYPES`. -/
def VALID_USER_TYPES : List (List Char) := [str "student", str "instructor", str "admin"]

/-- Embedding of `User.to_dict`: the redacted view returned by `login`. -/
def User.to_dict (u : User) : List (List Char × FieldVal) :=
  [(str "user_id", .s u.user_id),
   (str "email", .s u.email),
   (str "name", .s u.name),
   (str "user_type", .s u.user_type),
   (str "created_at", .t u.created_at),
   (str "is_active", .b u.is_active)]

/-- The two exception classes of the module, plus the uncaught `KeyError`
that `self.users[user_id]` would raise on a dangling index entry. -/
inductive AppError
  | validationError (msg : List Char)
  | authenticationError (msg : List Char)
  | keyError
deriving DecidableEq, Repr

/-- Characters matched by `[a-zA-Z0-9._%+-]` (the local part of the
email regex). -/
def isLocalChar (c : Char) : Bool :=
  c.isAlpha || c.isDigit || c == '.' || c == '_' || c == '%' || c == '+' || c == '-'

/-- Characters matched by `[a-zA-Z0-9.-]` (the domain part of the
email regex). -/
def isDomainChar (c : Char) : Bool := c.isAlpha || c.isDigit || c == '.' || c == '-'

/-- Core of `re.match(r'^[a-zA-Z0-9._%+-]+@[a-zA-Z0-9.-]+\.[a-zA-Z]{2,}$', s)`:
exactly one `@`; nonempty local part over its class; the domain splits at
its last dot into a nonempty `[a-zA-Z0-9.-]+` part and an alphabetic
top-level part of length at least two. -/
def emailMatchCore (s : List Char) : Bool :=
  match splitOn '@' s with
  | [lpart, domain] =>
    (!lpart.isEmpty) && lpart.all isLocalChar &&
      (let r := domain.reverse
       let tld := r.takeWhile (fun c => !(c == '.'))
       decide (2 ≤ tld.length) && tld.all Char.isAlpha &&
         (match r.drop tld.length with
          | [] => false
          | _ :: restRev => (!restRev.isEmpty) && restRev.all isDomainChar))
  | _ => false

/-- Embedding of the regex match used by `_validate_email`, including the
Python `$` quirk of also matching just before one trailing newline. -/
def emailMatches (s : List Char) : Bool :=
  emailMatchCore s ||
    (match s.reverse with
     | c :: rest => (c == '\n') && emailMatchCore rest.reverse
     | [] => false)

/-- State of a `UserManager` instance. -/
structure UserManagerState where
  users : List (List Char × User)
  email_index : List (List Char × List Char)
  session_manager : SessionManagerState
deriving DecidableEq, Repr

/-- The fresh state built by `UserManager.__init__` (default 24-hour
session duration, embedded in hours). -/
def UserManagerState.init : UserManagerState :=
  { users := [], email_index := [], session_manager := { sessions := [], session_duration := 24 } }

/-- The value returned by a successful `UserManager.login`. -/
structure LoginResult where
  token : List Char
  user : List (List Char × FieldVal)
deriving DecidableEq, Repr

namespace UserManager

/-- Embedding of `UserManager._validate_email`. -/
def _validate_email (email : List Char) : Except AppError Bool :=
  if emailMatches email then .ok true
  else .error (.validationError (str "Email inválido"))

/-- The message of the duplicate-registration error. -/
def dup_email_msg (email : List Char) : List Char :=
  str "Email " ++ email ++ str " ya registrado"

/-- Embedding of `UserManager.register_user`.  `uid_hex` stands for the
`secrets.token_hex(8)` draw behind the generated user id and `salt` for
the salt drawn inside `hash_password`; errors leave the state unchanged. -/
def register_user (sha256hex : List Char → List Char) (uid_hex salt : List Char)
    (now : Int) (st : UserManagerState) (email password name user_type : List Char) :
    Except AppError User × UserManagerState :=
  match _validate_email email with
  | .error e => (.error e, st)
  | .ok _ =>
    if (lookup st.email_index email).isSome then
      (.error (.validationError (dup_email_msg email)), st)
    else
      match PasswordManager.validate_password_strength password with
      | .error msg => (.error (.validationError msg), st)
      | .ok _ =>
        let user_id := str "user_" ++ uid_hex
        let password_hash := PasswordManager.hash_password sha256hex salt password
        let new_user : User :=
          { user_id := user_id, email := email, password_hash := password_hash,
            name := name, user_type := user_type, created_at := now,
            last_login := none, is_active := true, enrolled_courses := [] }
        (.ok new_user,
         { st with
             users := insertKey st.users user_id new_user,
             email_index := insertKey st.email_index email user_id })

/-- The generic credential error raised on both login failure paths. -/
def credentials_error : AppError :=
  .authenticationError (str "Credenciales incorrectas")

/-- Embedding of `UserManager.login`.  The `if not user_id` falsy test of
the source covers both a missing index entry and an empty-string id. -/
def login (sha256hex : List Char → List Char) (now : Int) (newToken : List Char)
    (st : UserManagerState) (email password : List Char) :
    Except AppError LoginResult × UserManagerState :=
  match lookup st.email_index email with
  | none => (.error credentials_error, st)
  | some user_id =>
    if user_id.isEmpty then (.error credentials_error, st)
    else
      match lookup st.users user_id with
      | none => (.error .keyError, st)
      | some user =>
        if ¬ PasswordManager.verify_password sha256hex password user.password_hash then
          (.error credentials_error, st)
        else
          let user' := { user with last_login := some now }
          let res := SessionManager.create_session newToken now st.session_manager user_id
          let st' :=
            { st with
                users := insertKey st.users user_id user',
                session_manager := res.2 }
          (.ok { token := res.1, user := User.to_dict user' }, st')

end UserManager

/-- C6: the strength rules run in the fixed order length, uppercase,
lowercase, digit; the first violated rule's message is raised; the check
succeeds exactly when all four rules hold. -/
theorem password_strength_spec (password : List Char) :
    (password.length < 8 →
      PasswordManager.validate_password_strength password =
        .error (str "Contraseña debe tener 8+ caracteres")) ∧
    (8 ≤ password.length → password.any Char.isUpper = false →
      PasswordManager.validate_password_strength password =
        .error (str "Debe contener una mayúscula")) ∧
    (8 ≤ password.length → password.any Char.isUpper = true →
        password.any Char.isLower = false →
      PasswordManager.validate_password_strength password =
        .error (str "Debe contener una minúscula")) ∧
    (8 ≤ password.length → password.any Char.isUpper = true →
        password.any Char.isLower = true → password.any Char.isDigit = false →
      PasswordManager.validate_password_strength password =
        .error (str "Debe contener un número")) ∧
    (PasswordManager.validate_password_strength password = .ok true ↔
      8 ≤ password.length ∧ password.any Char.isUpper = true ∧
        password.any Char.isLower = true ∧ password.any Char.isDigit = true) := by
  refine ⟨?_, ?_, ?_, ?_, ?_, ?_⟩
  · intro h1
    simp [PasswordManager.validate_password_strength, PasswordManager.MIN_PASSWORD_LENGTH, h1]
  · intro h1 h2
    simp [PasswordManager.validate_password_strength, PasswordManager.MIN_PASSWORD_LENGTH,
      Nat.not_lt.mpr h1, h2]
  · intro h1 h2 h3
    simp [PasswordManager.validate_password_strength, PasswordManager.MIN_PASSWORD_LENGTH,
      Nat.not_lt.mpr h1, h2, h3]
  · intro h1 h2 h3 h4
    simp [PasswordManager.validate_password_strength, PasswordManager.MIN_PASSWORD_LENGTH,
      Nat.not_lt.mpr h1, h2, h3, h4]
  · intro he
    by_cases h1 : password.length < 8
    · simp [PasswordManager.validate_password_strength,
        PasswordManager.MIN_PASSWORD_LENGTH, h1] at he
    · by_cases h2 : password.any Char.isUpper = true
      · by_cases h3 : password.any Char.isLower = true
        · by_cases h4 : password.any Char.isDigit = true
          · exact ⟨Nat.not_lt.mp h1, h2, h3, h4⟩
          · simp [PasswordManager.validate_password_strength,
              PasswordManager.MIN_PASSWORD_LENGTH, h1, h2, h3, h4] at he
        · simp [PasswordManager.validate_password_strength,
            PasswordManager.MIN_PASSWORD_LENGTH, h1, h2, h3] at he
      · simp [PasswordManager.validate_password_strength,
          PasswordManager.MIN_PASSWORD_LENGTH, h1, h2] at he
  · rintro ⟨h1, h2, h3, h4⟩
    simp [PasswordManager.validate_password_strength, PasswordManager.MIN_PASSWORD_LENGTH,
      Nat.not_lt.mpr h1, h2, h3, h4]

/-- Witness for C6 on the spec's three scenario passwords. -/
theorem password_strength_spec_witness :
    (PasswordManager.validate_password_strength (str "short1") =
      .error (str "Contraseña debe tener 8+ caracteres")) ∧
    (PasswordManager.validate_password_strength (str "longenough") =
      .error (str "Debe contener una mayúscula")) ∧
    (PasswordManager.validate_password_strength (str "Longenough1") = .ok true) :=
  ⟨(password_strength_spec (str "short1")).1 (by decide),
   (password_strength_spec (str "longenough")).2.1 (by decide) (by decide),
   (password_strength_spec (str "Longenough1")).2.2.2.2.mpr (by decide)⟩

/-- C5: `register_user` checks email syntax, then uniqueness, then
password strength, each failure leaving the state unchanged; after a
successful registration, registering the same email again fails with the
duplicate-email `ValidationError`. -/
theorem register_checks_spec (sha256hex : List Char → List Char)
    (uid_hex salt : List Char) (now : Int) (st : UserManagerState)
    (email password name user_type : List Char) :
    (emailMatches email = false →
      UserManager.register_user sha256hex uid_hex salt now st email password name user_type =
        (.error (.validationError (str "Email inválido")), st)) ∧
    (emailMatches email = true → (lookup st.email_index email).isSome = true →
      UserManager.register_user sha256hex uid_hex salt now st email password name user_type =
        (.error (.validationError (UserManager.dup_email_msg email)), st)) ∧
    (∀ msg, emailMatches email = true → lookup st.email_index email = none →
      PasswordManager.validate_password_strength password = .error msg →
      UserManager.register_user sha256hex uid_hex salt now st email password name user_type =
        (.error (.validationError msg), st)) ∧
    (emailMatches email = true → lookup st.email_index email = none →
      PasswordManager.validate_password_strength password = .ok true →
      (∃ u, (UserManager.register_user sha256hex uid_hex salt now st email password name user_type).1 = .ok u) ∧
      (∀ uid2 salt2 now2 password2 name2 type2,
        UserManager.register_user sha256hex uid2 salt2 now2
            (UserManager.register_user sha256hex uid_hex salt now st email password name user_type).2
            email password2 name2 type2 =
          (.error (.validationError (UserManager.dup_email_msg email)),
           (UserManager.register_user sha256hex uid_hex salt now st email password name user_type).2))) := by
  refine ⟨?_, ?_, ?_, ?_⟩
  · intro hm
    simp [UserManager.register_user, UserManager._validate_email, hm]
  · intro hm hidx
    simp [UserManager.register_user, UserManager._validate_email, hm, hidx]
  · intro msg hm hidx hweak
    simp [UserManager.register_user, UserManager._validate_email, hm, hidx, hweak]
  · intro hm hidx hstrong
    have hreg : UserManager.register_user sha256hex uid_hex salt now st email password name user_type =
        (Except.ok (User.mk (str "user_" ++ uid_hex) email (PasswordManager.hash_password sha256hex salt password) name user_type now none true []),
         UserManagerState.mk (insertKey st.users (str "user_" ++ uid_hex) (User.mk (str "user_" ++ uid_hex) email (PasswordManager.hash_password sha256hex salt password) name user_type now none true [])) (insertKey st.email_index email (str "user_" ++ uid_hex)) st.session_manager) := by
      simp [UserManager.register_user, UserManager._validate_email, hm, hidx, hstrong]
    constructor
    · exact ⟨User.mk (str "user_" ++ uid_hex) email (PasswordManager.hash_password sha256hex salt password) name user_type now none true [],
        by rw [hreg]⟩
    · intro uid2 salt2 now2 password2 name2 type2
      rw [hreg]
      simp [UserManager.register_user, UserManager._validate_email, hm, lookup_insertKey_self]

/-- Witness for C5: a malformed email is rejected, and registering
`a@b.com` twice from the fresh state succeeds then fails with the
duplicate-email error. -/
theorem register_checks_spec_witness :
    (UserManager.register_user (fun _ => str "0a") (str "11") (str "aa") 0
        UserManagerState.init (str "bad") (str "Passw0rd1") (str "Ana") (str "student") =
      (.error (.validationError (str "Email inválido")), UserManagerState.init)) ∧
    (∃ u, (UserManager.register_user (fun _ => str "0a") (str "11") (str "aa") 0
        UserManagerState.init (str "a@b.com") (str "Passw0rd1") (str "Ana") (str "student")).1 = .ok u) ∧
    (UserManager.register_user (fun _ => str "0a") (str "22") (str "bb") 1
        (UserManager.register_user (fun _ => str "0a") (str "11") (str "aa") 0
          UserManagerState.init (str "a@b.com") (str "Passw0rd1") (str "Ana") (str "student")).2
        (str "a@b.com") (str "Xyzzy123") (str "Bob") (str "student") =
      (.error (.validationError (UserManager.dup_email_msg (str "a@b.com"))),
       (UserManager.register_user (fun _ => str "0a") (str "11") (str "aa") 0
         UserManagerState.init (str "a@b.com") (str "Passw0rd1") (str "Ana") (str "student")).2)) :=
  ⟨(register_checks_spec (fun _ => str "0a") (str "11") (str "aa") 0
      UserManagerState.init (str "bad") (str "Passw0rd1") (str "Ana") (str "student")).1
        (by decide),
   ((register_checks_spec (fun _ => str "0a") (str "11") (str "aa") 0
      UserManagerState.init (str "a@b.com") (str "Passw0rd1") (str "Ana") (str "student")).2.2.2
        (by decide) (by decide) (by decide)).1,
   ((register_checks_spec (fun _ => str "0a") (str "11") (str "aa") 0
      UserManagerState.init (str "a@b.com") (str "Passw0rd1") (str "Ana") (str "student")).2.2.2
        (by decide) (by decide) (by decide)).2
     (str "22") (str "bb") 1 (str "Xyzzy123") (str "Bob") (str "student")⟩

/-- C3: login with an unknown email and login with a wrong password for a
registered email fail with the same `AuthenticationError` and the same
message, so the two failures are observationally indistinguishable. -/
theorem login_failures_indistinguishable (sha256hex : List Char → List Char)
    (now1 now2 : Int) (tok1 tok2 : List Char) (st : UserManagerState)
    (email1 email2 password1 password2 uid : List Char) (user : User)
    (h1 : lookup st.email_index email1 = none)
    (h2 : lookup st.email_index email2 = some uid)
    (hne : uid.isEmpty = false)
    (hu : lookup st.users uid = some user)
    (hv : PasswordManager.verify_password sha256hex password2 user.password_hash = false) :
    (UserManager.login sha256hex now1 tok1 st email1 password1).1 =
      .error UserManager.credentials_error ∧
    (UserManager.login sha256hex now2 tok2 st email2 password2).1 =
      .error UserManager.credentials_error := by
  constructor
  · simp [UserManager.login, h1]
  · simp [UserManager.login, h2, hne, hu, hv]

/-- Sample digest function for concrete runs: the registered password is
`pw`, hashed with salt `aa` to digest `bb`; any other input digests to
`cc`. -/
def sampleSha : List Char → List Char :=
  fun s => if s = str "pwaa" then str "bb" else str "cc"

/-- Sample stored user for concrete runs (password hash `aa$bb`). -/
def sampleUser : User :=
  User.mk (str "u1") (str "e@x.com") (str "aa$bb") (str "N") (str "student") 0 none true []

/-- Sample directory state holding `sampleUser` under email `e@x.com`. -/
def sampleState : UserManagerState :=
  UserManagerState.mk [(str "u1", sampleUser)] [(str "e@x.com", str "u1")]
    (SessionManagerState.mk [] 24)

/-- Witness for C3: unknown email `no@x.com` and wrong password for
`e@x.com` produce the identical error. -/
theorem login_failures_indistinguishable_witness :
    (UserManager.login sampleSha 1 (str "t1") sampleState (str "no@x.com") (str "pw")).1 =
      .error UserManager.credentials_error ∧
    (UserManager.login sampleSha 2 (str "t2") sampleState (str "e@x.com") (str "wrong")).1 =
      .error UserManager.credentials_error :=
  login_failures_indistinguishable sampleSha 1 2 (str "t1") (str "t2") sampleState
    (str "no@x.com") (str "e@x.com") (str "pw") (str "wrong") (str "u1") sampleUser
    (by decide) (by decide) (by decide) (by decide) (by decide)

/-- C7: a successful login updates the user's `last_login` to now, stores
a session for the user's id under the fresh token, returns that token with
the `to_dict` view, and the view has no `password_hash` field. -/
theorem login_success_spec (sha256hex : List Char → List Char) (now : Int)
    (tok : List Char) (st : UserManagerState) (email password uid : List Char)
    (user : User)
    (h2 : lookup st.email_index email = some uid)
    (hne : uid.isEmpty = false)
    (hu : lookup st.users uid = some user)
    (hv : PasswordManager.verify_password sha256hex password user.password_hash = true) :
    (UserManager.login sha256hex now tok st email password =
      (.ok (LoginResult.mk tok (User.to_dict { user with last_login := some now })),
       UserManagerState.mk (insertKey st.users uid { user with last_login := some now }) st.email_index (SessionManagerState.mk (insertKey st.session_manager.sessions tok (Session.mk uid now (now + st.session_manager.session_duration))) st.session_manager.session_duration))) ∧
    (∀ p ∈ User.to_dict { user with last_login := some now }, p.1 ≠ str "password_hash") := by
  constructor
  · simp [UserManager.login, h2, hne, hu, hv, SessionManager.create_session]
  · have hall : (User.to_dict { user with last_login := some now }).all
        (fun p => !(p.1 == str "password_hash")) = true := rfl
    intro p hp
    have hcheck := List.all_eq_true.mp hall p hp
    simpa using hcheck

/-- Witness for C7: a concrete successful login on the sample state. -/
theorem login_success_spec_witness :
    (UserManager.login sampleSha 5 (str "tok") sampleState (str "e@x.com") (str "pw") =
      (.ok (LoginResult.mk (str "tok") (User.to_dict { sampleUser with last_login := some 5 })),
       UserManagerState.mk (insertKey sampleState.users (str "u1") { sampleUser with last_login := some 5 }) sampleState.email_index (SessionManagerState.mk (insertKey sampleState.session_manager.sessions (str "tok") (Session.mk (str "u1") 5 (5 + sampleState.session_manager.session_duration))) sampleState.session_manager.session_duration))) ∧
    (∀ p ∈ User.to_dict { sampleUser with last_login := some 5 }, p.1 ≠ str "password_hash") :=
  login_success_spec sampleSha 5 (str "tok") sampleState (str "e@x.com") (str "pw")
    (str "u1") sampleUser (by decide) (by decide) (by decide) (by decide)

/-- C10: whenever `login` fails (any raised error: unknown email, empty
id, dangling index, or password mismatch), the returned state is exactly
the input state: no session is created and no user record is changed. -/
theorem login_error_preserves_state (sha256hex : List Char → List Char)
    (now : Int) (tok : List Char) (st : UserManagerState)
    (email password : List Char) (e : AppError)
    (h : (UserManager.login sha256hex now tok st email password).1 = .error e) :
    (UserManager.login sha256hex now tok st email password).2 = st := by
  unfold UserManager.login at h ⊢
  cases hlook : lookup st.email_index email with
  | none => simp
  | some uid =>
    by_cases hne : uid = []
    · simp [hne]
    · cases hu : lookup st.users uid with
      | none => simp [hne, hu]
      | some user =>
        cases hv : PasswordManager.verify_password sha256hex password user.password_hash with
        | false => simp [hne, hu, hv]
        | true => simp [hlook, hne, hu, hv] at h

/-- Witness for C10: the failing login on the fresh state leaves it
untouched. -/
theorem login_error_preserves_state_witness :
    (UserManager.login sampleSha 0 (str "t") UserManagerState.init (str "x") (str "y")).2 =
      UserManagerState.init :=
  login_error_preserves_state sampleSha 0 (str "t") UserManagerState.init
    (str "x") (str "y") UserManager.credentials_error (by decide)

/-- C9 (code bug): `register_user` performs no validation of `user_type`
against `User.VALID_USER_TYPES`, so a registration with `user_type`
`hacker` succeeds and is stored, violating the claimed invariant. -/
theorem register_stores_invalid_user_type :
    ∃ u : User,
      (UserManager.register_user (fun _ => str "0a") (str "11") (str "aa") 0
          UserManagerState.init (str "a@b.com") (str "Passw0rd1") (str "Ana")
          (str "hacker")).1 = .ok u ∧
      lookup (UserManager.register_user (fun _ => str "0a") (str "11") (str "aa") 0
          UserManagerState.init (str "a@b.com") (str "Passw0rd1") (str "Ana")
          (str "hacker")).2.users u.user_id = some u ∧
      u.user_type ∉ VALID_USER_TYPES := by
  refine ⟨User.mk (str "user_11") (str "a@b.com") (str "aa$0a") (str "Ana") (str "hacker") 0 none true [], ?_, ?_, ?_⟩ <;> decide

end AuthSpec
